import Mathlib

/-
Verification of the command-synthesis and configuration-assembly layer of
robusta_krr (src/robusta_krr/main.py) against its natural-language
specification.

The embedding is shallow: Python values appearing in the code are mapped to
Lean values, Python exceptions to an `Except` error monad, and the
process-wide mutable state (the committed configuration and the Runner) to an
explicit `RunState` threaded through the handler.  Parts of the repository
that main.py imports but that are not part of the sources being verified
(the pydantic `Config` model's validation, the formatter registry and the
`Runner`) are modelled from the specification and marked as such in their
doc comments.
-/

deriving instance DecidableEq for Except

namespace KRR

/-- A Python type value as it can reach `__process_type` or an
`inspect.Parameter` annotation.  `optional t` is a parameterized
`Optional[t]` (that is, the union of `t` and `None`); `bareOptional` is the
unsubscripted `typing.Optional` special form, a distinct object; `listOf t`
is `List[t]`; `context` is `typer.Context`; `other s` stands for any other
(unknown or structured) type with name `s`. -/
inductive PyType where
  | int
  | float
  | str
  | bool
  | datetime
  | uuid
  | optional (t : PyType)
  | bareOptional
  | listOf (t : PyType)
  | context
  | other (name : String)
  deriving DecidableEq

/-- The Python exceptions that the embedded code can raise. -/
inductive PyErr where
  | attributeError
  | typeError
  | valueError
  | validationError
  deriving DecidableEq

/-- Membership of a type in the tuple `(int, float, str, bool, datetime, UUID)`
tested on line 36 of src/robusta_krr/main.py.  These are the six
CLI-representable primitives. -/
def isCliPrimitive : PyType → Bool
  | PyType.int => true
  | PyType.float => true
  | PyType.str => true
  | PyType.bool => true
  | PyType.datetime => true
  | PyType.uuid => true
  | _ => false

/-- Embeds `__process_type` (src/robusta_krr/main.py lines 34-41).

The first test is the tuple membership of line 36.  The second test embeds
the identity test `_T is Optional` of line 38: it is true only for the bare
unsubscripted `typing.Optional` special form.  A parameterized
`Optional[T]` is a union object, which is neither equal to any of the six
primitives nor identical to the special form, so it falls through to the
`else` of line 41 and narrows to `str`.  When the identity test does hold,
the branch body of line 39 evaluates `_T.__args__`; the bare special form
has no `__args__` attribute, so an `AttributeError` is raised before the
recursive call (the recursion in the source is therefore unreachable). -/
def processType (T : PyType) : Except PyErr PyType :=
  if isCliPrimitive T then Except.ok T
  else if T = PyType.bareOptional then Except.error PyErr.attributeError
  else Except.ok PyType.str

/-- A Python value bound to a CLI option or collected into `other_args`. -/
inductive CliValue where
  | pyNone
  | bool (b : Bool)
  | int (i : Int)
  | str (s : String)
  | strList (xs : List String)
  deriving DecidableEq

/-- The values bound to the fixed global options of `run_strategy`
(src/robusta_krr/main.py lines 48-232), in declaration order.  Options
declared `Optional[...]`, or declared with a `None` default, are embedded
as `Option` values; the list options `clusters`, `namespaces` and
`resources` are `Option (List String)` because the raw handler can be
handed Python `None` for them (their declared typer default). -/
structure GlobalArgs where
  kubeconfig : Option String
  clusters : Option (List String)
  all_clusters : Bool
  namespaces : Option (List String)
  resources : Option (List String)
  selector : Option String
  prometheus_url : Option String
  prometheus_auth_header : Option String
  prometheus_other_headers : Option (List String)
  prometheus_ssl_enabled : Bool
  prometheus_cluster_label : Option String
  prometheus_label : Option String
  eks_managed_prom : Bool
  eks_managed_prom_profile_name : Option String
  eks_access_key : Option String
  eks_secret_key : Option String
  eks_service_name : Option String
  eks_managed_prom_region : Option String
  coralogix_token : Option String
  openshift : Bool
  cpu_min_value : Int
  memory_min_value : Int
  max_workers : Int
  format : String
  show_cluster_name : Bool
  verbose : Bool
  quiet : Bool
  log_to_stderr : Bool
  width : Option Int
  file_output : Option String
  slack_output : Option String
  deriving DecidableEq

/-- The value of the clusters/namespaces/resources field of the assembled
configuration: either the wildcard string, a literal list, or Python
`None` passed through. -/
inductive Selector where
  | star
  | literal (xs : List String)
  | pyNone
  deriving DecidableEq

/-- The keyword arguments of the `Config(...)` call of
src/robusta_krr/main.py lines 238-270, in call order.  This is the
assembled Configuration handed to validation. -/
structure ConfigData where
  kubeconfig : Option String
  clusters : Selector
  namespaces : Selector
  resources : Selector
  selector : Option String
  prometheus_url : Option String
  prometheus_auth_header : Option String
  prometheus_other_headers : Option (List String)
  prometheus_ssl_enabled : Bool
  prometheus_cluster_label : Option String
  prometheus_label : Option String
  eks_managed_prom : Bool
  eks_managed_prom_region : Option String
  eks_managed_prom_profile_name : Option String
  eks_access_key : Option String
  eks_secret_key : Option String
  eks_service_name : Option String
  coralogix_token : Option String
  openshift : Bool
  max_workers : Int
  format : String
  show_cluster_name : Bool
  verbose : Bool
  cpu_min_value : Int
  memory_min_value : Int
  quiet : Bool
  log_to_stderr : Bool
  width : Option Int
  file_output : Option String
  slack_output : Option String
  strategy : String
  other_args : List (String × CliValue)
  deriving DecidableEq

/-- Embeds the evaluation of the arguments of the `Config(...)` call
(src/robusta_krr/main.py lines 238-271).  The keyword arguments are
evaluated in source order: the conditional for `clusters` (line 240) cannot
raise, while the membership tests for `namespaces` (line 241) and
`resources` (line 242) raise a `TypeError` when the bound value is Python
`None` (membership in `None` is not defined); `namespaces` is evaluated
first.  A raised `TypeError` escapes before any `Config` instance is
constructed.  On success the result is the fully assembled Configuration:
the captured strategy name goes to the `strategy` field (line 269) and the
collected strategy keyword arguments to `other_args` (line 270). -/
def assembleConfig (strategyName : String) (a : GlobalArgs)
    (strategyArgs : List (String × CliValue)) : Except PyErr ConfigData :=
  match a.namespaces, a.resources with
  | Option.none, _ => Except.error PyErr.typeError
  | Option.some _, Option.none => Except.error PyErr.typeError
  | Option.some ns, Option.some rs =>
      Except.ok
        { kubeconfig := a.kubeconfig,
          clusters :=
            if a.all_clusters then Selector.star
            else
              match a.clusters with
              | Option.some xs => Selector.literal xs
              | Option.none => Selector.pyNone,
          namespaces := if ns.contains "*" then Selector.star else Selector.literal ns,
          resources := if rs.contains "*" then Selector.star else Selector.literal rs,
          selector := a.selector,
          prometheus_url := a.prometheus_url,
          prometheus_auth_header := a.prometheus_auth_header,
          prometheus_other_headers := a.prometheus_other_headers,
          prometheus_ssl_enabled := a.prometheus_ssl_enabled,
          prometheus_cluster_label := a.prometheus_cluster_label,
          prometheus_label := a.prometheus_label,
          eks_managed_prom := a.eks_managed_prom,
          eks_managed_prom_region := a.eks_managed_prom_region,
          eks_managed_prom_profile_name := a.eks_managed_prom_profile_name,
          eks_access_key := a.eks_access_key,
          eks_secret_key := a.eks_secret_key,
          eks_service_name := a.eks_service_name,
          coralogix_token := a.coralogix_token,
          openshift := a.openshift,
          max_workers := a.max_workers,
          format := a.format,
          show_cluster_name := a.show_cluster_name,
          verbose := a.verbose,
          cpu_min_value := a.cpu_min_value,
          memory_min_value := a.memory_min_value,
          quiet := a.quiet,
          log_to_stderr := a.log_to_stderr,
          width := a.width,
          file_output := a.file_output,
          slack_output := a.slack_output,
          strategy := strategyName,
          other_args := strategyArgs }

/-- Modelled from the spec: the formatter registry
(`robusta_krr.formatters` and `formatters.list_available()`) is not among
the verified sources; the spec names "table" as the registered formatter
selected by the default invocation, and says the formatter name is
validated against the registered set. -/
def list_available : List String := ["table"]

/-- Modelled from the spec: the schema validation performed by the pydantic
`Config` model (`robusta_krr.core.models.config.Config`), which is not
among the verified sources.  Per the spec, validation rejects out-of-range
recommendation floors (for example a negative minimum CPU value) and a
formatter name that is not among the registered formatters. -/
def configValidate (c : ConfigData) : Bool :=
  decide (0 ≤ c.cpu_min_value) && decide (0 ≤ c.memory_min_value) &&
    list_available.contains c.format

/-- The process-wide state a command invocation can affect: the committed
current configuration (the `Config.set_config` singleton; modelled from the
spec, `core.models.config` not being among the verified sources), the
record of Runner invocations — each entry is the configuration in effect
when `runner.run()` was started (the `Runner` is an external collaborator
per the spec) — and the handler's log. -/
structure RunState where
  currentConfig : Option ConfigData
  runnerInvocations : List (Option ConfigData)
  log : List String
  deriving DecidableEq

/-- The state at process start: nothing committed, no Runner invocation,
empty log. -/
def initState : RunState :=
  { currentConfig := Option.none, runnerInvocations := [], log := [] }

/-- Embeds the body of the generated command handler `run_strategy`
(src/robusta_krr/main.py lines 237-277) for a captured strategy name.

Inside the `try` of line 237, the arguments of `Config(...)` are evaluated
(a `TypeError` raised there is not a `ValidationError`, so it escapes the
handler and nothing below runs), then the `Config` model validates them; on
success line 272 commits the instance as the process-wide current
configuration.  A `ValidationError` is caught on line 273 and logged with
the source's message text, after which the handler returns normally without
touching the committed configuration and without reaching the Runner.
Otherwise the `else` of lines 275-277 constructs a Runner and blocks on
`asyncio.run(runner.run())`; the Runner reads the configuration committed
just before, which the model records as the invocation's entry. -/
def run_strategy (strategyName : String) (a : GlobalArgs)
    (strategyArgs : List (String × CliValue)) (st : RunState) :
    Except PyErr RunState :=
  match assembleConfig strategyName a strategyArgs with
  | Except.error e => Except.error e
  | Except.ok config =>
      if configValidate config then
        let st1 : RunState := { st with currentConfig := Option.some config }
        Except.ok
          { st1 with runnerInvocations := st1.runnerInvocations ++ [st1.currentConfig] }
      else
        Except.ok { st with log := st.log ++ ["Error occured while parsing arguments"] }

/-- Sample bound values for the fixed global options: the typer defaults of
src/robusta_krr/main.py lines 50-232, with the three list options resolved
to empty lists, the way the typer/click CLI layer resolves an unset
multi-value option declared with a `None` default before calling the
handler. -/
def defaultGlobalArgs : GlobalArgs :=
  { kubeconfig := Option.none,
    clusters := Option.some [],
    all_clusters := false,
    namespaces := Option.some [],
    resources := Option.some [],
    selector := Option.none,
    prometheus_url := Option.none,
    prometheus_auth_header := Option.none,
    prometheus_other_headers := Option.none,
    prometheus_ssl_enabled := false,
    prometheus_cluster_label := Option.none,
    prometheus_label := Option.none,
    eks_managed_prom := false,
    eks_managed_prom_profile_name := Option.none,
    eks_access_key := Option.none,
    eks_secret_key := Option.none,
    eks_service_name := Option.some "aps",
    eks_managed_prom_region := Option.none,
    coralogix_token := Option.none,
    openshift := false,
    cpu_min_value := 10,
    memory_min_value := 100,
    max_workers := 10,
    format := "table",
    show_cluster_name := false,
    verbose := false,
    quiet := false,
    log_to_stderr := false,
    width := Option.none,
    file_output := Option.none,
    slack_output := Option.none }

/-- The Configuration assembled by the default invocation of the command of
the "simple" strategy with no strategy-specific arguments. -/
def defaultSimpleConfig : ConfigData :=
  { kubeconfig := Option.none,
    clusters := Selector.literal [],
    namespaces := Selector.literal [],
    resources := Selector.literal [],
    selector := Option.none,
    prometheus_url := Option.none,
    prometheus_auth_header := Option.none,
    prometheus_other_headers := Option.none,
    prometheus_ssl_enabled := false,
    prometheus_cluster_label := Option.none,
    prometheus_label := Option.none,
    eks_managed_prom := false,
    eks_managed_prom_region := Option.none,
    eks_managed_prom_profile_name := Option.none,
    eks_access_key := Option.none,
    eks_secret_key := Option.none,
    eks_service_name := Option.some "aps",
    coralogix_token := Option.none,
    openshift := false,
    max_workers := 10,
    format := "table",
    show_cluster_name := false,
    verbose := false,
    cpu_min_value := 10,
    memory_min_value := 100,
    quiet := false,
    log_to_stderr := false,
    width := Option.none,
    file_output := Option.none,
    slack_output := Option.none,
    strategy := "simple",
    other_args := [] }

/-- Global option values for an invocation that supplies an explicit
cluster list together with the all-clusters flag. -/
def allClustersArgs : GlobalArgs :=
  { defaultGlobalArgs with clusters := Option.some ["c1", "c2"], all_clusters := true }

/-- The Configuration assembled from `allClustersArgs`. -/
def allClustersConfig : ConfigData :=
  { defaultSimpleConfig with clusters := Selector.star }

/-- Global option values with a namespaces list containing the wildcard
token next to a literal entry, and a literal resources list. -/
def wildcardNamespaceArgs : GlobalArgs :=
  { defaultGlobalArgs with
      namespaces := Option.some ["*", "foo"], resources := Option.some ["Deployment"] }

/-- The Configuration assembled from `wildcardNamespaceArgs`. -/
def wildcardNamespaceConfig : ConfigData :=
  { defaultSimpleConfig with
      namespaces := Selector.star, resources := Selector.literal ["Deployment"] }

/-- Global option values with a negative minimum CPU floor, which the
configuration schema rejects. -/
def negativeCpuArgs : GlobalArgs :=
  { defaultGlobalArgs with cpu_min_value := -1 }

/-- The Configuration assembled from `negativeCpuArgs` (rejected by
validation). -/
def negativeCpuConfig : ConfigData :=
  { defaultSimpleConfig with cpu_min_value := -1 }

/-- Global option values as the raw handler would receive them when called
with the declared defaults directly, bypassing the CLI layer: the
namespaces option keeps its Python `None` default. -/
def noNamespaceListArgs : GlobalArgs :=
  { defaultGlobalArgs with namespaces := Option.none }

/-- The kind of an `inspect.Parameter`. -/
inductive ParamKind where
  | positionalOrKeyword
  | keywordOnly
  | varKeyword
  deriving DecidableEq

/-- An `inspect.Parameter` of the synthesized command signature, together
with the data of the `typer.Option` standing as its default: flag names,
default value, help text and help-panel label.  The `ann` field is the
parameter annotation. -/
structure Param where
  name : String
  kind : ParamKind
  flags : List String
  default : Option CliValue
  help : String
  panel : String
  ann : PyType
  deriving DecidableEq

/-- Python f-string interpolation of an optional string (line 290): a
present description renders verbatim, an absent one (Python `None`) renders
as the text "None". -/
def pyFStr : Option String → String
  | Option.some s => s
  | Option.none => "None"

/-- One field of a strategy settings schema, as `__fields__` exposes it:
the field name, the declared type (`field_meta.type_`), the default
(`field_meta.default`) and the description
(`field_meta.field_info.description`). -/
structure FieldMeta where
  name : String
  type_ : PyType
  default : CliValue
  description : Option String
  deriving DecidableEq

/-- A strategy descriptor: its ordered settings schema
(`strategy_type.get_settings_type().__fields__`). -/
structure Strategy where
  settingsFields : List FieldMeta
  deriving DecidableEq

/-- Embeds the construction of one `inspect.Parameter` from one schema
field (src/robusta_krr/main.py lines 284-294): keyword-only, named after
the field, flag `--` + the field name verbatim (line 289), the schema
default, help text from the f-string rendering of the description
(line 290), the fixed "Strategy Settings" help panel, and the annotation
narrowed by `__process_type` (line 293) — an exception raised there
propagates out of the synthesis. -/
def mkStrategyParam (f : FieldMeta) : Except PyErr Param :=
  match processType f.type_ with
  | Except.error e => Except.error e
  | Except.ok narrowed =>
      Except.ok
        { name := f.name,
          kind := ParamKind.keywordOnly,
          flags := ["--" ++ f.name],
          default := Option.some f.default,
          help := pyFStr f.description,
          panel := "Strategy Settings",
          ann := narrowed }

/-- Embeds the list comprehension of lines 283-296: one parameter per
schema field, in schema order; an exception on any field propagates. -/
def buildStrategyParams : List FieldMeta → Except PyErr (List Param)
  | [] => Except.ok []
  | f :: fs =>
      match mkStrategyParam f with
      | Except.error e => Except.error e
      | Except.ok p =>
          match buildStrategyParams fs with
          | Except.error e => Except.error e
          | Except.ok ps => Except.ok (p :: ps)

/-- The declared parameters of `run_strategy`
(src/robusta_krr/main.py lines 48-233), in declaration order: the typer
context, the thirty-one fixed global options, and the trailing
`**strategy_args` variadic keyword parameter. -/
def runStrategySignatureParams : List Param :=
  [{ name := "ctx", kind := ParamKind.positionalOrKeyword, flags := [],
     default := Option.none, help := "", panel := "", ann := PyType.context },
   { name := "kubeconfig", kind := ParamKind.positionalOrKeyword,
     flags := ["--kubeconfig", "-k"], default := Option.some CliValue.pyNone,
     help := "Path to kubeconfig file. If not provided, will attempt to find it.",
     panel := "Kubernetes Settings", ann := PyType.optional PyType.str },
   { name := "clusters", kind := ParamKind.positionalOrKeyword,
     flags := ["--context", "--cluster", "-c"], default := Option.some CliValue.pyNone,
     help := "List of clusters to run on. By default, will run on the current cluster. Use --all-clusters to run on all clusters.",
     panel := "Kubernetes Settings", ann := PyType.listOf PyType.str },
   { name := "all_clusters", kind := ParamKind.positionalOrKeyword,
     flags := ["--all-clusters"], default := Option.some (CliValue.bool false),
     help := "Run on all clusters. Overrides --context.",
     panel := "Kubernetes Settings", ann := PyType.bool },
   { name := "namespaces", kind := ParamKind.positionalOrKeyword,
     flags := ["--namespace", "-n"], default := Option.some CliValue.pyNone,
     help := "List of namespaces to run on. By default, will run on all namespaces except \u0027kube-system\u0027.",
     panel := "Kubernetes Settings", ann := PyType.listOf PyType.str },
   { name := "resources", kind := ParamKind.positionalOrKeyword,
     flags := ["--resource", "-r"], default := Option.some CliValue.pyNone,
     help := "List of resources to run on (Deployment, StatefulSet, DaemonSet, Job, Rollout). By default, will run on all resources. Case insensitive.",
     panel := "Kubernetes Settings", ann := PyType.listOf PyType.str },
   { name := "selector", kind := ParamKind.positionalOrKeyword,
     flags := ["--selector", "-s"], default := Option.some CliValue.pyNone,
     help := "Selector (label query) to filter on, supports \u0027=\u0027, \u0027==\u0027, and \u0027!=\u0027.(e.g. -s key1=value1,key2=value2). Matching objects must satisfy all of the specified label constraints.",
     panel := "Kubernetes Settings", ann := PyType.optional PyType.str },
   { name := "prometheus_url", kind := ParamKind.positionalOrKeyword,
     flags := ["--prometheus-url", "-p"], default := Option.some CliValue.pyNone,
     help := "Prometheus URL. If not provided, will attempt to find it in kubernetes cluster",
     panel := "Prometheus Settings", ann := PyType.optional PyType.str },
   { name := "prometheus_auth_header", kind := ParamKind.positionalOrKeyword,
     flags := ["--prometheus-auth-header"], default := Option.some CliValue.pyNone,
     help := "Prometheus authentication header.",
     panel := "Prometheus Settings", ann := PyType.optional PyType.str },
   { name := "prometheus_other_headers", kind := ParamKind.positionalOrKeyword,
     flags := ["--prometheus-headers", "-H"], default := Option.some CliValue.pyNone,
     help := "Additional headers to add to Prometheus requests. Format as \u0027key: value\u0027, for example \u0027X-MyHeader: 123\u0027. Trailing whitespaces will be stripped.",
     panel := "Prometheus Settings", ann := PyType.optional (PyType.listOf PyType.str) },
   { name := "prometheus_ssl_enabled", kind := ParamKind.positionalOrKeyword,
     flags := ["--prometheus-ssl-enabled"], default := Option.some (CliValue.bool false),
     help := "Enable SSL for Prometheus requests.",
     panel := "Prometheus Settings", ann := PyType.bool },
   { name := "prometheus_cluster_label", kind := ParamKind.positionalOrKeyword,
     flags := ["--prometheus-cluster-label", "-l"], default := Option.some CliValue.pyNone,
     help := "The label in prometheus for your cluster.(Only relevant for centralized prometheus)",
     panel := "Prometheus Settings", ann := PyType.optional PyType.str },
   { name := "prometheus_label", kind := ParamKind.positionalOrKeyword,
     flags := ["--prometheus-label"], default := Option.some CliValue.pyNone,
     help := "The label in prometheus used to differentiate clusters. (Only relevant for centralized prometheus)",
     panel := "Prometheus Settings", ann := PyType.str },
   { name := "eks_managed_prom", kind := ParamKind.positionalOrKeyword,
     flags := ["--eks-managed-prom"], default := Option.some (CliValue.bool false),
     help := "Adds additional signitures for eks prometheus connection.",
     panel := "Prometheus EKS Settings", ann := PyType.bool },
   { name := "eks_managed_prom_profile_name", kind := ParamKind.positionalOrKeyword,
     flags := ["--eks-profile-name"], default := Option.some CliValue.pyNone,
     help := "Sets the profile name for eks prometheus connection.",
     panel := "Prometheus EKS Settings", ann := PyType.optional PyType.str },
   { name := "eks_access_key", kind := ParamKind.positionalOrKeyword,
     flags := ["--eks-access-key"], default := Option.some CliValue.pyNone,
     help := "Sets the access key for eks prometheus connection.",
     panel := "Prometheus EKS Settings", ann := PyType.optional PyType.str },
   { name := "eks_secret_key", kind := ParamKind.positionalOrKeyword,
     flags := ["--eks-secret-key"], default := Option.some CliValue.pyNone,
     help := "Sets the secret key for eks prometheus connection.",
     panel := "Prometheus EKS Settings", ann := PyType.optional PyType.str },
   { name := "eks_service_name", kind := ParamKind.positionalOrKeyword,
     flags := ["--eks-service-name"], default := Option.some (CliValue.str "aps"),
     help := "Sets the service name for eks prometheus connection.",
     panel := "Prometheus EKS Settings", ann := PyType.optional PyType.str },
   { name := "eks_managed_prom_region", kind := ParamKind.positionalOrKeyword,
     flags := ["--eks-managed-prom-region"], default := Option.some CliValue.pyNone,
     help := "Sets the region for eks prometheus connection.",
     panel := "Prometheus EKS Settings", ann := PyType.optional PyType.str },
   { name := "coralogix_token", kind := ParamKind.positionalOrKeyword,
     flags := ["--coralogix-token"], default := Option.some CliValue.pyNone,
     help := "Adds the token needed to query Coralogix managed prometheus.",
     panel := "Prometheus Coralogix Settings", ann := PyType.optional PyType.str },
   { name := "openshift", kind := ParamKind.positionalOrKeyword,
     flags := ["--openshift"], default := Option.some (CliValue.bool false),
     help := "Used when running by Robusta inside an OpenShift cluster.",
     panel := "Prometheus Openshift Settings", ann := PyType.bool },
   { name := "cpu_min_value", kind := ParamKind.positionalOrKeyword,
     flags := ["--cpu-min"], default := Option.some (CliValue.int 10),
     help := "Sets the minimum recommended cpu value in millicores.",
     panel := "Recommendation Settings", ann := PyType.int },
   { name := "memory_min_value", kind := ParamKind.positionalOrKeyword,
     flags := ["--mem-min"], default := Option.some (CliValue.int 100),
     help := "Sets the minimum recommended memory value in MB.",
     panel := "Recommendation Settings", ann := PyType.int },
   { name := "max_workers", kind := ParamKind.positionalOrKeyword,
     flags := ["--max-workers", "-w"], default := Option.some (CliValue.int 10),
     help := "Max workers to use for async requests.",
     panel := "Threading Settings", ann := PyType.int },
   { name := "format", kind := ParamKind.positionalOrKeyword,
     flags := ["--formatter", "-f"], default := Option.some (CliValue.str "table"),
     help := "Output formatter (" ++ String.intercalate ", " list_available ++ ")",
     panel := "Logging Settings", ann := PyType.str },
   { name := "show_cluster_name", kind := ParamKind.positionalOrKeyword,
     flags := ["--show-cluster-name"], default := Option.some (CliValue.bool false),
     help := "In table output, always show the cluster name even for a single cluster",
     panel := "Output Settings", ann := PyType.bool },
   { name := "verbose", kind := ParamKind.positionalOrKeyword,
     flags := ["--verbose", "-v"], default := Option.some (CliValue.bool false),
     help := "Enable verbose mode", panel := "Logging Settings", ann := PyType.bool },
   { name := "quiet", kind := ParamKind.positionalOrKeyword,
     flags := ["--quiet", "-q"], default := Option.some (CliValue.bool false),
     help := "Enable quiet mode", panel := "Logging Settings", ann := PyType.bool },
   { name := "log_to_stderr", kind := ParamKind.positionalOrKeyword,
     flags := ["--logtostderr"], default := Option.some (CliValue.bool false),
     help := "Pass logs to stderr", panel := "Logging Settings", ann := PyType.bool },
   { name := "width", kind := ParamKind.positionalOrKeyword,
     flags := ["--width"], default := Option.some CliValue.pyNone,
     help := "Width of the output. Will use console width by default.",
     panel := "Logging Settings", ann := PyType.optional PyType.int },
   { name := "file_output", kind := ParamKind.positionalOrKeyword,
     flags := ["--fileoutput"], default := Option.some CliValue.pyNone,
     help := "Print the output to a file", panel := "Output Settings",
     ann := PyType.optional PyType.str },
   { name := "slack_output", kind := ParamKind.positionalOrKeyword,
     flags := ["--slackoutput"], default := Option.some CliValue.pyNone,
     help := "Send to output to a slack channel, must have SLACK_BOT_TOKEN",
     panel := "Output Settings", ann := PyType.optional PyType.str },
   { name := "strategy_args", kind := ParamKind.varKeyword, flags := [],
     default := Option.none, help := "", panel := "",
     ann := PyType.other "Any" }]

/-- The fixed global parameters every synthesized command starts with:
`list(signature.parameters.values())[:-1]` of line 282 — all declared
parameters of `run_strategy` except the trailing `**strategy_args`. -/
def fixedGlobalParams : List Param := runStrategySignatureParams.dropLast

/-- A synthesized CLI command: the name it is registered under
(`run_strategy.__name__`, set to the strategy name on line 279), the
replaced signature's parameter list, and the handler typer invokes. -/
structure Command where
  name : String
  params : List Param
  run : GlobalArgs → List (String × CliValue) → RunState → Except PyErr RunState

/-- Whether no two entries of the list coincide — the duplicate
parameter-name check `inspect.Signature` performs when the signature is
rebuilt by `replace` on lines 280-297; a duplicate name raises a
`ValueError`. -/
def namesNodup : List String → Bool
  | [] => true
  | x :: xs => !(xs.contains x) && namesNodup xs

/-- Embeds `strategy_wrapper` (src/robusta_krr/main.py lines 47-299) for
one registry entry.  The inner `run_strategy` closes over
`_strategy_name`, the wrapper's own parameter, whose default was evaluated
to the current iteration's strategy name when the wrapper was defined — so
the handler is `run_strategy` applied to exactly this entry's name.  The
command's signature is replaced by the original parameters minus the
trailing `**strategy_args`, followed by one keyword-only parameter per
schema field (lines 280-297); rebuilding the signature raises a
`ValueError` if the combined list repeats a parameter name.  The command
is registered under the strategy's name. -/
def strategy_wrapper (strategyName : String) (strategyType : Strategy) :
    Except PyErr Command :=
  match buildStrategyParams strategyType.settingsFields with
  | Except.error e => Except.error e
  | Except.ok stratParams =>
      let params := fixedGlobalParams ++ stratParams
      if namesNodup (params.map Param.name) then
        Except.ok
          { name := strategyName, params := params, run := run_strategy strategyName }
      else
        Except.error PyErr.valueError

/-- Embeds `load_commands` (src/robusta_krr/main.py lines 44-301): for
each registry entry, in enumeration order, define `strategy_wrapper` with
the current strategy name as its parameter default and invoke it at once,
registering one command; an exception during one strategy's synthesis
propagates out of `load_commands`. -/
def load_commands : List (String × Strategy) → Except PyErr (List Command)
  | [] => Except.ok []
  | p :: rest =>
      match strategy_wrapper p.1 p.2 with
      | Except.error e => Except.error e
      | Except.ok cmd =>
          match load_commands rest with
          | Except.error e => Except.error e
          | Except.ok cmds => Except.ok (cmd :: cmds)

/-- A three-strategy registry registering A, B and C in that order, each
with an empty settings schema. -/
def registryABC : List (String × Strategy) :=
  [("A", { settingsFields := [] }),
   ("B", { settingsFields := [] }),
   ("C", { settingsFields := [] })]

/-- The commands `load_commands` synthesizes from `registryABC`. -/
def commandsABC : List Command :=
  [{ name := "A", params := fixedGlobalParams, run := run_strategy "A" },
   { name := "B", params := fixedGlobalParams, run := run_strategy "B" },
   { name := "C", params := fixedGlobalParams, run := run_strategy "C" }]

/-- The Configuration committed by invoking the command of strategy "A"
with the default global option values. -/
def configA : ConfigData := { defaultSimpleConfig with strategy := "A" }

/-- A schema field carrying a description. -/
def historyDurationField : FieldMeta :=
  { name := "history_duration", type_ := PyType.float, default := CliValue.int 336,
    description := Option.some "The duration of the history data to use (in hours)" }

/-- A schema field carrying no description. -/
def cpuPercentileField : FieldMeta :=
  { name := "cpu_percentile", type_ := PyType.other "Decimal",
    default := CliValue.int 99, description := Option.none }

/-- The parameter synthesized from `historyDurationField`. -/
def historyDurationParam : Param :=
  { name := "history_duration", kind := ParamKind.keywordOnly,
    flags := ["--history_duration"], default := Option.some (CliValue.int 336),
    help := "The duration of the history data to use (in hours)",
    panel := "Strategy Settings", ann := PyType.float }

/-- The parameter synthesized from `cpuPercentileField`. -/
def cpuPercentileParam : Param :=
  { name := "cpu_percentile", kind := ParamKind.keywordOnly,
    flags := ["--cpu_percentile"], default := Option.some (CliValue.int 99),
    help := "None", panel := "Strategy Settings", ann := PyType.str }

/-- A strategy with a two-field settings schema. -/
def sampleStrategy : Strategy :=
  { settingsFields := [historyDurationField, cpuPercentileField] }

/-- A one-strategy registry. -/
def sampleRegistry : List (String × Strategy) := [("sample", sampleStrategy)]

/-- The commands `load_commands` synthesizes from `sampleRegistry`. -/
def sampleCommands : List Command :=
  [{ name := "sample",
     params := fixedGlobalParams ++ [historyDurationParam, cpuPercentileParam],
     run := run_strategy "sample" }]

end KRR

namespace KRR

/-- C2 counterexample: narrowing the parameterized wrapper `Optional[int]`
yields `str`, while narrowing `int` yields `int`, so
`narrow(optional-of-T) = narrow(T)` fails at `T = int`. -/
theorem processType_optional_unwrap_fails :
    processType (PyType.optional PyType.int) ≠ processType PyType.int ∧
    processType (PyType.optional PyType.int) = Except.ok PyType.str ∧
    processType PyType.int = Except.ok PyType.int := by
  decide

/-- C2 (amended): for every type `T`, narrowing the parameterized optional
wrapper `Optional[T]` returns the `str` fallback — the wrapper is never
unwrapped, because the unwrap branch of `__process_type` matches only the
bare unsubscripted optional special form.  Hence
`narrow(optional-of-T) = narrow(T)` holds exactly when `narrow(T) = str`. -/
theorem processType_optional_is_str (t : PyType) :
    processType (PyType.optional t) = Except.ok PyType.str := by
  cases t <;> rfl

/-- C7 counterexample: `__process_type` is not total — applied to the bare
unsubscripted optional special form it raises an `AttributeError`
(`typing.Optional` has no `__args__`), instead of returning a CLI
primitive. -/
theorem processType_bare_optional_raises :
    processType PyType.bareOptional = Except.error PyErr.attributeError := by
  decide

/-- C7 (amended): for every declared type other than the bare unsubscripted
optional special form, `__process_type` returns one of the six CLI
primitives and does not raise; moreover every such type that is not itself
one of the six primitives (including any unknown or structured type and any
parameterized optional wrapper) narrows to `str`. -/
theorem processType_total_on_subscripted (T : PyType)
    (h : T ≠ PyType.bareOptional) :
    (∃ p, processType T = Except.ok p ∧ isCliPrimitive p = true) ∧
    (isCliPrimitive T = false → processType T = Except.ok PyType.str) := by
  cases T <;> simp_all [processType, isCliPrimitive]

/-- C7 witness: a structured object type narrows to `str` without raising. -/
theorem processType_total_on_subscripted_witness :
    (∃ p, processType (PyType.other "StrategySettings") = Except.ok p ∧
        isCliPrimitive p = true) ∧
    (isCliPrimitive (PyType.other "StrategySettings") = false →
        processType (PyType.other "StrategySettings") = Except.ok PyType.str) :=
  processType_total_on_subscripted (PyType.other "StrategySettings") (by decide)

/-- Helper: the assembled Configuration always carries the captured
strategy name and the collected strategy keyword arguments. -/
theorem assembleConfig_ok_strategy (n : String) (a : GlobalArgs)
    (s : List (String × CliValue)) (cfg : ConfigData)
    (h : assembleConfig n a s = Except.ok cfg) :
    cfg.strategy = n ∧ cfg.other_args = s := by
  unfold assembleConfig at h
  cases hns : a.namespaces with
  | none => rw [hns] at h; exact absurd h (by simp)
  | some ns =>
    cases hrs : a.resources with
    | none => rw [hns, hrs] at h; exact absurd h (by simp)
    | some rs =>
      rw [hns, hrs] at h
      injection h with h
      subst h
      exact ⟨rfl, rfl⟩

/-- C4: whenever the `Config(...)` argument assembly succeeds, the
Configuration's clusters field is the wildcard whenever the all-clusters
flag is set — regardless of any explicit cluster list supplied — and is the
supplied cluster list passed through unchanged when the flag is unset. -/
theorem assembleConfig_all_clusters_wildcard (n : String) (a : GlobalArgs)
    (s : List (String × CliValue)) (cfg : ConfigData)
    (h : assembleConfig n a s = Except.ok cfg) :
    (a.all_clusters = true → cfg.clusters = Selector.star) ∧
    (∀ xs, a.all_clusters = false → a.clusters = Option.some xs →
        cfg.clusters = Selector.literal xs) := by
  unfold assembleConfig at h
  cases hns : a.namespaces with
  | none => rw [hns] at h; exact absurd h (by simp)
  | some ns =>
    cases hrs : a.resources with
    | none => rw [hns, hrs] at h; exact absurd h (by simp)
    | some rs =>
      rw [hns, hrs] at h
      injection h with h
      subst h
      constructor
      · intro hac
        simp [hac]
      · intro xs hac hcl
        simp [hac, hcl]

/-- C4 witness: clusters=["c1","c2"] with all_clusters=true resolves to the
wildcard selector. -/
theorem assembleConfig_all_clusters_wildcard_witness :
    assembleConfig "simple" allClustersArgs [] = Except.ok allClustersConfig ∧
    ConfigData.clusters allClustersConfig = Selector.star :=
  ⟨by decide,
   (assembleConfig_all_clusters_wildcard "simple" allClustersArgs [] allClustersConfig
      (by decide)).1 rfl⟩

/-- C5: whenever the `Config(...)` argument assembly succeeds from actual
namespaces and resources lists, a list containing the wildcard token is
forced to the wildcard selector, and a list not containing it is passed
through unchanged — independently for namespaces and resources. -/
theorem assembleConfig_wildcard_dominance (n : String) (a : GlobalArgs)
    (s : List (String × CliValue)) (cfg : ConfigData) (ns rs : List String)
    (hns : a.namespaces = Option.some ns) (hrs : a.resources = Option.some rs)
    (h : assembleConfig n a s = Except.ok cfg) :
    (ns.contains "*" = true → cfg.namespaces = Selector.star) ∧
    (ns.contains "*" = false → cfg.namespaces = Selector.literal ns) ∧
    (rs.contains "*" = true → cfg.resources = Selector.star) ∧
    (rs.contains "*" = false → cfg.resources = Selector.literal rs) := by
  unfold assembleConfig at h
  rw [hns, hrs] at h
  injection h with h
  subst h
  refine ⟨fun hw => ?_, fun hw => ?_, fun hw => ?_, fun hw => ?_⟩ <;>
    simp only [hw] <;> simp

/-- C5 witness: namespaces=["*","foo"] resolves to the wildcard, while
resources=["Deployment"] passes through as the literal list. -/
theorem assembleConfig_wildcard_dominance_witness :
    assembleConfig "simple" wildcardNamespaceArgs [] =
        Except.ok wildcardNamespaceConfig ∧
    ConfigData.namespaces wildcardNamespaceConfig = Selector.star ∧
    ConfigData.resources wildcardNamespaceConfig = Selector.literal ["Deployment"] := by
  have h := assembleConfig_wildcard_dominance "simple" wildcardNamespaceArgs []
    wildcardNamespaceConfig ["*", "foo"] ["Deployment"] rfl rfl (by decide)
  exact ⟨by decide, h.1 (by decide), h.2.2.2 (by decide)⟩

/-- C3: when the assembled Configuration fails schema validation, the
handler returns normally (no crash) with the failure logged, the
process-wide current configuration untouched (in particular, nothing is
committed if nothing was committed before), and no Runner invocation. -/
theorem run_strategy_validation_failure_atomic (n : String) (a : GlobalArgs)
    (s : List (String × CliValue)) (st : RunState) (cfg : ConfigData)
    (hasm : assembleConfig n a s = Except.ok cfg)
    (hval : configValidate cfg = false) :
    run_strategy n a s st =
      Except.ok
        { currentConfig := st.currentConfig,
          runnerInvocations := st.runnerInvocations,
          log := st.log ++ ["Error occured while parsing arguments"] } := by
  simp [run_strategy, hasm, hval]

/-- C3 witness: a negative minimum-CPU floor fails validation; the handler
logs and returns with nothing committed and the Runner never invoked. -/
theorem run_strategy_validation_failure_atomic_witness :
    run_strategy "simple" negativeCpuArgs [] initState =
      Except.ok
        { currentConfig := Option.none,
          runnerInvocations := [],
          log := ["Error occured while parsing arguments"] } :=
  run_strategy_validation_failure_atomic "simple" negativeCpuArgs [] initState
    negativeCpuConfig (by decide) (by decide)

/-- C6: when the assembled Configuration validates successfully, it is
committed as the process-wide current configuration and the Runner is then
invoked exactly once, with exactly that committed configuration in effect
at the moment of the invocation. -/
theorem run_strategy_success_commits_then_runs (n : String) (a : GlobalArgs)
    (s : List (String × CliValue)) (st : RunState) (cfg : ConfigData)
    (hasm : assembleConfig n a s = Except.ok cfg)
    (hval : configValidate cfg = true) :
    run_strategy n a s st =
      Except.ok
        { currentConfig := Option.some cfg,
          runnerInvocations := st.runnerInvocations ++ [Option.some cfg],
          log := st.log } := by
  simp [run_strategy, hasm, hval]

/-- C6 witness: the default invocation of the "simple" strategy commits a
Configuration with strategy "simple", cpu_min_value 10, memory_min_value
100 and format "table", and the Runner runs exactly once with it. -/
theorem run_strategy_success_commits_then_runs_witness :
    run_strategy "simple" defaultGlobalArgs [] initState =
      Except.ok
        { currentConfig := Option.some defaultSimpleConfig,
          runnerInvocations := [Option.some defaultSimpleConfig],
          log := [] } ∧
    ConfigData.strategy defaultSimpleConfig = "simple" ∧
    ConfigData.cpu_min_value defaultSimpleConfig = 10 ∧
    ConfigData.memory_min_value defaultSimpleConfig = 100 ∧
    ConfigData.format defaultSimpleConfig = "table" :=
  ⟨run_strategy_success_commits_then_runs "simple" defaultGlobalArgs [] initState
      defaultSimpleConfig (by decide) (by decide),
   rfl, rfl, rfl, rfl⟩

/-- C10: the handler is defined only for actual list values of the
namespaces and resources options: if either is Python `None` (their
declared defaults), the membership test of the wildcard normalization
raises a `TypeError` before any Configuration is constructed and the
handler never returns; with actual lists supplied, the handler always
returns normally. -/
theorem run_strategy_requires_list_args (n : String) (a : GlobalArgs)
    (s : List (String × CliValue)) (st : RunState) :
    ((a.namespaces = Option.none ∨ a.resources = Option.none) →
        run_strategy n a s st = Except.error PyErr.typeError) ∧
    (∀ ns rs, a.namespaces = Option.some ns → a.resources = Option.some rs →
        ∃ st', run_strategy n a s st = Except.ok st') := by
  constructor
  · intro h
    unfold run_strategy assembleConfig
    cases hns : a.namespaces with
    | none => simp
    | some ns =>
      cases hrs : a.resources with
      | none => simp
      | some rs =>
        rw [hns] at h
        rw [hrs] at h
        rcases h with h | h <;> exact absurd h (by simp)
  · intro ns rs hns hrs
    cases hasm : assembleConfig n a s with
    | error e =>
        unfold assembleConfig at hasm
        rw [hns, hrs] at hasm
        exact absurd hasm (by simp)
    | ok cfg =>
        simp only [run_strategy, hasm]
        by_cases hv : configValidate cfg = true
        · simp [hv]
        · simp [hv]

/-- C10 witness: calling the handler with the namespaces option left at its
declared `None` default raises a `TypeError` before any Configuration is
constructed. -/
theorem run_strategy_requires_list_args_witness :
    run_strategy "simple" noNamespaceListArgs [] initState =
      Except.error PyErr.typeError :=
  (run_strategy_requires_list_args "simple" noNamespaceListArgs [] initState).1
    (Or.inl rfl)

/-- Helper: the shape of a successfully synthesized command — its
registered name is the strategy name, its handler is `run_strategy`
applied to that same name, and its parameters are the fixed global
parameters followed by the schema-derived ones, with the duplicate-name
check passed. -/
theorem strategy_wrapper_ok (n : String) (s : Strategy) (cmd : Command)
    (h : strategy_wrapper n s = Except.ok cmd) :
    cmd.name = n ∧ cmd.run = run_strategy n ∧
    ∃ sp, buildStrategyParams s.settingsFields = Except.ok sp ∧
      cmd.params = fixedGlobalParams ++ sp ∧
      namesNodup ((fixedGlobalParams ++ sp).map Param.name) = true := by
  unfold strategy_wrapper at h
  cases hbp : buildStrategyParams s.settingsFields with
  | error e => rw [hbp] at h; exact Except.noConfusion h
  | ok sp =>
      simp only [hbp] at h
      by_cases hnd : namesNodup ((fixedGlobalParams ++ sp).map Param.name) = true
      · rw [if_pos hnd] at h
        injection h with h
        subst h
        exact ⟨rfl, rfl, sp, rfl, rfl, hnd⟩
      · rw [if_neg hnd] at h
        exact Except.noConfusion h

/-- Helper: a successful `load_commands` synthesizes one command per
registry entry, in enumeration order, each produced by `strategy_wrapper`
applied to its own entry. -/
theorem load_commands_get (registry : List (String × Strategy))
    (cmds : List Command) (h : load_commands registry = Except.ok cmds) :
    cmds.length = registry.length ∧
    ∀ i (hr : i < registry.length) (hc : i < cmds.length),
      strategy_wrapper (registry.get ⟨i, hr⟩).1 (registry.get ⟨i, hr⟩).2 =
        Except.ok (cmds.get ⟨i, hc⟩) := by
  induction registry generalizing cmds with
  | nil =>
      unfold load_commands at h
      injection h with h
      subst h
      exact ⟨rfl, fun i hr => absurd hr (Nat.not_lt_zero i)⟩
  | cons p rest ih =>
      unfold load_commands at h
      cases hsw : strategy_wrapper p.1 p.2 with
      | error e => rw [hsw] at h; exact Except.noConfusion h
      | ok cmd =>
          simp only [hsw] at h
          cases hlc : load_commands rest with
          | error e => rw [hlc] at h; exact Except.noConfusion h
          | ok cs =>
              simp only [hlc] at h
              injection h with h
              subst h
              obtain ⟨hlen, hget⟩ := ih cs hlc
              refine ⟨by simp [hlen], ?_⟩
              intro i hr hc
              cases i with
              | zero => exact hsw
              | succ j =>
                  exact hget j (Nat.lt_of_succ_lt_succ hr) (Nat.lt_of_succ_lt_succ hc)

/-- Helper: a successful `buildStrategyParams` yields exactly one
parameter per schema field, in schema order. -/
theorem buildStrategyParams_ok (fs : List FieldMeta) (ps : List Param)
    (h : buildStrategyParams fs = Except.ok ps) :
    ps.length = fs.length ∧
    ∀ j (hj : j < fs.length) (hp : j < ps.length),
      mkStrategyParam (fs.get ⟨j, hj⟩) = Except.ok (ps.get ⟨j, hp⟩) := by
  induction fs generalizing ps with
  | nil =>
      unfold buildStrategyParams at h
      injection h with h
      subst h
      exact ⟨rfl, fun j hj => absurd hj (Nat.not_lt_zero j)⟩
  | cons f fs ih =>
      unfold buildStrategyParams at h
      cases hmp : mkStrategyParam f with
      | error e => rw [hmp] at h; exact Except.noConfusion h
      | ok q =>
          simp only [hmp] at h
          cases hbp : buildStrategyParams fs with
          | error e => rw [hbp] at h; exact Except.noConfusion h
          | ok qs =>
              simp only [hbp] at h
              injection h with h
              subst h
              obtain ⟨hlen, hget⟩ := ih qs hbp
              refine ⟨by simp [hlen], ?_⟩
              intro j hj hp
              cases j with
              | zero => exact hmp
              | succ k =>
                  exact hget k (Nat.lt_of_succ_lt_succ hj) (Nat.lt_of_succ_lt_succ hp)

/-- Helper: the data of one successfully synthesized strategy parameter. -/
theorem mkStrategyParam_ok (f : FieldMeta) (p : Param)
    (h : mkStrategyParam f = Except.ok p) :
    p.name = f.name ∧ p.flags = ["--" ++ f.name] ∧
    p.kind = ParamKind.keywordOnly ∧ p.help = pyFStr f.description := by
  unfold mkStrategyParam at h
  cases hpt : processType f.type_ with
  | error e => rw [hpt] at h; exact Except.noConfusion h
  | ok narrowed =>
      simp only [hpt] at h
      injection h with h
      subst h
      exact ⟨rfl, rfl, rfl, rfl⟩

/-- Helper: the duplicate-name check implies the names are pairwise
distinct. -/
theorem namesNodup_nodup (xs : List String) (h : namesNodup xs = true) :
    xs.Nodup := by
  induction xs with
  | nil => exact List.nodup_nil
  | cons x t ih =>
      unfold namesNodup at h
      rw [Bool.and_eq_true] at h
      obtain ⟨h1, h2⟩ := h
      have h1' : t.contains x = false := by simpa using h1
      refine List.nodup_cons.mpr ⟨?_, ih h2⟩
      intro hmem
      have hx : t.contains x = true :=
        List.contains_iff_exists_mem_beq.mpr ⟨x, hmem, by simp⟩
      rw [h1'] at hx
      exact Bool.noConfusion hx

/-- Helper: starting from a state with no committed configuration, any
configuration committed by a handler run carries the handler's captured
strategy name. -/
theorem run_strategy_committed (n : String) (a : GlobalArgs)
    (s : List (String × CliValue)) (st st' : RunState) (cfg : ConfigData)
    (hrun : run_strategy n a s st = Except.ok st')
    (hst : st.currentConfig = Option.none)
    (hcfg : st'.currentConfig = Option.some cfg) :
    cfg.strategy = n := by
  unfold run_strategy at hrun
  cases hasm : assembleConfig n a s with
  | error e => rw [hasm] at hrun; exact Except.noConfusion hrun
  | ok c =>
      simp only [hasm] at hrun
      by_cases hv : configValidate c = true
      · rw [if_pos hv] at hrun
        injection hrun with hrun
        subst hrun
        have hc2 : Option.some c = Option.some cfg := hcfg
        injection hc2 with hc2
        subst hc2
        exact (assembleConfig_ok_strategy n a s c hasm).1
      · rw [if_neg hv] at hrun
        injection hrun with hrun
        subst hrun
        have hc2 : st.currentConfig = Option.some cfg := hcfg
        rw [hst] at hc2
        exact Option.noConfusion hc2

/-- C1: for every registry and every position in enumeration order, the
command generated at that position is registered under that position's own
strategy name and its handler closes over that same name: starting from a
state with no committed configuration, any Configuration the invocation
commits has that strategy's name in its strategy field — never the name
captured by a later iteration. -/
theorem load_commands_closure_capture (registry : List (String × Strategy))
    (cmds : List Command) (hload : load_commands registry = Except.ok cmds)
    (i : Nat) (hr : i < registry.length) (hc : i < cmds.length)
    (a : GlobalArgs) (s : List (String × CliValue)) (st st' : RunState)
    (cfg : ConfigData)
    (hrun : (cmds.get ⟨i, hc⟩).run a s st = Except.ok st')
    (hst : st.currentConfig = Option.none)
    (hcfg : st'.currentConfig = Option.some cfg) :
    (cmds.get ⟨i, hc⟩).name = (registry.get ⟨i, hr⟩).1 ∧
    cfg.strategy = (registry.get ⟨i, hr⟩).1 := by
  obtain ⟨-, hget⟩ := load_commands_get registry cmds hload
  obtain ⟨hname, hrunEq, -⟩ := strategy_wrapper_ok _ _ _ (hget i hr hc)
  rw [hrunEq] at hrun
  exact ⟨hname, run_strategy_committed _ a s st st' cfg hrun hst hcfg⟩

/-- C1 witness: with strategies A, B, C registered in that order, invoking
the first generated command commits a Configuration whose strategy field is
"A" — not "C", the last-iterated name. -/
theorem load_commands_closure_capture_witness :
    (commandsABC.get ⟨0, by decide⟩).name = "A" ∧
    ConfigData.strategy configA = "A" :=
  load_commands_closure_capture registryABC commandsABC rfl 0 (by decide) (by decide)
    defaultGlobalArgs [] initState
    { currentConfig := Option.some configA,
      runnerInvocations := [Option.some configA], log := [] }
    configA (by decide) rfl rfl

/-- C8: for every strategy of the registry, the synthesized command's
parameter list is exactly the fixed global parameters followed by one
keyword-only option per field of that strategy's own settings schema, in
schema order — each flag being `--` + the field name verbatim — with no
duplicate parameter names; the strategy part is derived from that
strategy's schema alone, so no option of another strategy's schema
appears. -/
theorem load_commands_params_exact (registry : List (String × Strategy))
    (cmds : List Command) (hload : load_commands registry = Except.ok cmds)
    (i : Nat) (hr : i < registry.length) (hc : i < cmds.length) :
    ∃ stratParams,
      buildStrategyParams (registry.get ⟨i, hr⟩).2.settingsFields =
          Except.ok stratParams ∧
      (cmds.get ⟨i, hc⟩).params = fixedGlobalParams ++ stratParams ∧
      stratParams.length = (registry.get ⟨i, hr⟩).2.settingsFields.length ∧
      (∀ j (hj : j < (registry.get ⟨i, hr⟩).2.settingsFields.length)
          (hp : j < stratParams.length),
        (stratParams.get ⟨j, hp⟩).name =
            ((registry.get ⟨i, hr⟩).2.settingsFields.get ⟨j, hj⟩).name ∧
        (stratParams.get ⟨j, hp⟩).flags =
            ["--" ++ ((registry.get ⟨i, hr⟩).2.settingsFields.get ⟨j, hj⟩).name] ∧
        (stratParams.get ⟨j, hp⟩).kind = ParamKind.keywordOnly) ∧
      ((cmds.get ⟨i, hc⟩).params.map Param.name).Nodup := by
  obtain ⟨-, hget⟩ := load_commands_get registry cmds hload
  obtain ⟨-, -, sp, hbp, hparams, hnd⟩ := strategy_wrapper_ok _ _ _ (hget i hr hc)
  obtain ⟨hlen, hpt⟩ := buildStrategyParams_ok _ _ hbp
  refine ⟨sp, hbp, hparams, hlen, ?_, ?_⟩
  · intro j hj hp
    obtain ⟨h1, h2, h3, -⟩ := mkStrategyParam_ok _ _ (hpt j hj hp)
    exact ⟨h1, h2, h3⟩
  · rw [hparams]
    exact namesNodup_nodup _ hnd

/-- C8 witness: for a one-strategy registry with a two-field schema, the
generated command's parameters are exactly the fixed global parameters
followed by the two schema-derived options with verbatim
`--field_name` flags. -/
theorem load_commands_params_exact_witness :
    (sampleCommands.get ⟨0, by decide⟩).params =
      fixedGlobalParams ++ [historyDurationParam, cpuPercentileParam] := by
  obtain ⟨sp, hbp, hparams, -⟩ :=
    load_commands_params_exact sampleRegistry sampleCommands rfl 0 (by decide) (by decide)
  have hsp : Except.ok sp = Except.ok [historyDurationParam, cpuPercentileParam] :=
    hbp.symm.trans (by decide)
  injection hsp with hsp
  rw [hparams, hsp]

/-- C9 counterexample: a schema field with no description is synthesized
with help text "None" — the f-string rendering of the missing value — and
not the empty string. -/
theorem strategy_param_help_none_counterexample :
    mkStrategyParam cpuPercentileField = Except.ok cpuPercentileParam ∧
    Param.help cpuPercentileParam = "None" ∧
    Param.help cpuPercentileParam ≠ "" := by
  refine ⟨by decide, rfl, ?_⟩
  intro h
  exact absurd h (by decide)

/-- C9 (amended): for every strategy-schema field whose parameter is
synthesized, the generated option's help text is the f-string rendering of
the field's description: the description itself when present, and the
four-character string "None" — not the empty string — when the description
is absent. -/
theorem strategy_param_help_text (f : FieldMeta) (p : Param)
    (h : mkStrategyParam f = Except.ok p) :
    p.help = pyFStr f.description := by
  exact (mkStrategyParam_ok f p h).2.2.2

/-- C9 witness: a field with a description yields exactly that description
as the help text. -/
theorem strategy_param_help_text_witness :
    Param.help historyDurationParam = pyFStr historyDurationField.description :=
  strategy_param_help_text historyDurationField historyDurationParam (by decide)

end KRR
